import Mathlib

/-!
Shallow embedding of the `reddit-mcp` bridge forwarder.

The repository has one handler (present twice: `api/reddit-mcp.ts` exports it
as a default `async function handler`, and the second copy wraps the same body
in an object's `fetch` method; the two bodies are runtime-identical). The
handler is a linear pipeline: method check, optional wrapper authentication,
upstream-URL configuration check, JSON body parse, field validation, payload
normalization, one upstream fetch, and translation of the upstream outcome,
all inside a top-level try/catch.

The embedding models JavaScript dynamics where the handler depends on them:
`JSON.parse` results are `Json` values; property access on a parsed value is
`getField`, which throws a TypeError on `null` (as JavaScript does) and yields
`undefined` on primitives and missing keys; `typeof` is `typeofJs`; thrown
values are `JsValue`s and `err?.message` is `errMessage`. The hosting
runtime's serialization primitives (`JSON.stringify` / `JSON.parse` on
upstream text), the process environment, and the network are parameters:
`JsonRuntime`, `Env`, and a function from the outbound request to a
`FetchOutcome`. The handler returns the list of outbound calls it made
together with its `HttpResponse`, so frame properties about network effects
are statable.
-/

namespace RedditMcp

/-- JSON values, as produced by a successful `JSON.parse`. Object fields are
kept in insertion order; `JSON.parse` collapses duplicate keys keeping the
last, which `getFieldD` mirrors by looking the key up from the right. -/
inductive Json where
  | null
  | bool (b : Bool)
  | num (n : Int)
  | str (s : String)
  | arr (elems : List Json)
  | obj (fields : List (String × Json))

/-- A JavaScript value as seen by the handler: either `undefined` or a JSON
value. Property reads on parsed bodies and the payload's optional fields
live here. -/
inductive JsValue where
  | undefined
  | val (j : Json)

/-- The JavaScript `typeof` operator on the values the handler can see. -/
def typeofJs : JsValue → String
  | .undefined => "undefined"
  | .val .null => "object"
  | .val (.bool _) => "boolean"
  | .val (.num _) => "number"
  | .val (.str _) => "string"
  | .val (.arr _) => "object"
  | .val (.obj _) => "object"

/-- Property read on a non-null value: objects look the key up (last
occurrence wins, matching `JSON.parse` duplicate-key behaviour); every other
value, and a missing key, yields `undefined`. (The handler only ever reads
the keys `subreddit`, `query`, `size`, `before`, `after`, none of which is an
own property of a primitive or an array.) -/
def getFieldD (j : Json) (f : String) : JsValue :=
  match j with
  | .obj fs =>
    match fs.reverse.find? (fun kv => kv.1 == f) with
    | some kv => .val kv.2
    | none => .undefined
  | _ => .undefined

/-- The TypeError JavaScript throws for a property read on `null`, as a
thrown value carrying a string `message`. -/
def typeError (f : String) : JsValue :=
  .val (.obj [("message", .str ("Cannot read properties of null (reading '" ++ f ++ "')"))])

/-- Property read `body.f` on a parsed JSON value: throws a TypeError when
the value is `null`, otherwise yields `getFieldD`. -/
def getField (j : Json) (f : String) : Except JsValue JsValue :=
  match j with
  | .null => .error (typeError f)
  | _ => .ok (getFieldD j f)

/-- The optional-chain read `err?.message` on a thrown value: `undefined`
unless the value is an object carrying a `message` property. -/
def errMessage : JsValue → JsValue
  | .val (.obj fs) => getFieldD (.obj fs) "message"
  | _ => .undefined

/-- The catch clause's detail:
`typeof err?.message === "string" ? err.message : "Unknown error"`. -/
def catchDetail (err : JsValue) : Json :=
  match errMessage err with
  | .val (.str m) => .str m
  | _ => .str "Unknown error"

/-- The three environment variables the handler reads. `none` models an
unset variable; JavaScript truthiness additionally treats `""` as unset. -/
structure Env where
  MCP_WRAPPER_KEY : Option String
  REDDIT_BRIDGE_URL : Option String
  REDDIT_BRIDGE_BYPASS_SECRET : Option String

/-- JavaScript truthiness of `process.env.X`: set and non-empty. -/
def envTruthy : Option String → Bool
  | none => false
  | some s => s != ""

/-- The inbound request: its method, its header lookup (`headers.get`, which
returns `null` for an absent header), and the outcome of `await
request.json()` (`none` when the body does not parse as JSON). -/
structure InboundRequest where
  method : String
  headers : String → Option String
  body : Option Json

/-- The wrapper-authentication check of the handler:
`if (wrapperKey) { const header = request.headers.get("x-mcp-key");
if (!header || header !== wrapperKey) return 401 }`. Returns `true` when the
request is allowed through. -/
def wrapperAuthOk (env : Env) (request : InboundRequest) : Bool :=
  match env.MCP_WRAPPER_KEY with
  | none => true
  | some key =>
    if key == "" then true
    else
      match request.headers "x-mcp-key" with
      | none => false
      | some h => h != "" && h == key

/-- The `RedditBridgeRequest` payload the handler builds: the five fields are
copied verbatim from the parsed body (so the optional ones are `undefined`
when absent; no coercion). -/
structure RedditBridgeRequest where
  subreddit : JsValue
  query : JsValue
  size : JsValue
  before : JsValue
  after : JsValue

/-- One property of `JSON.stringify`'s object serialization: a field whose
value is `undefined` is omitted, any other value is kept. -/
def optField (name : String) : JsValue → List (String × Json)
  | .undefined => []
  | .val j => [(name, j)]

/-- The object `JSON.stringify` serializes for the payload: insertion order
`subreddit`, `query`, `size`, `before`, `after`, with `undefined` fields
omitted. -/
def payloadJson (p : RedditBridgeRequest) : Json :=
  .obj (optField "subreddit" p.subreddit ++ optField "query" p.query ++
        optField "size" p.size ++ optField "before" p.before ++
        optField "after" p.after)

/-- Outcome of the field-validation and payload-construction step on a
parsed body. -/
inductive ValidateResult where
  | thrown (err : JsValue)
  | invalid
  | valid (payload : RedditBridgeRequest)

/-- The validation check
`typeof body.subreddit !== "string" || typeof body.query !== "string"`
(left to right, short-circuiting) followed by the payload object literal,
with each property read able to throw when `body` is `null`. -/
def validateAndBuild (j : Json) : ValidateResult :=
  match getField j "subreddit" with
  | .error e => .thrown e
  | .ok sub =>
    if typeofJs sub != "string" then .invalid
    else
      match getField j "query" with
      | .error e => .thrown e
      | .ok q =>
        if typeofJs q != "string" then .invalid
        else
          match getField j "size", getField j "before", getField j "after" with
          | .error e, _, _ => .thrown e
          | .ok _, .error e, _ => .thrown e
          | .ok _, .ok _, .error e => .thrown e
          | .ok sz, .ok bf, .ok af =>
            .valid { subreddit := sub, query := q, size := sz, before := bf, after := af }

/-- The hosting runtime's JSON primitives, external to the component:
`stringify` is `JSON.stringify` (the handler passes `(data, null, 2)`), and
`parse` is `JSON.parse` on the upstream body text (`none` when it throws). -/
structure JsonRuntime where
  stringify : Json → String
  parse : String → Option Json

/-- The outbound request handed to `fetch`. -/
structure UpstreamRequest where
  url : String
  method : String
  headers : List (String × String)
  body : String

/-- A resolved upstream response: its status, its runtime-provided `ok`
flag, and the text its body reads as. -/
structure UpstreamResponse where
  status : Nat
  ok : Bool
  text : String

/-- Outcome of `await fetch(...)` followed by `await upstream.text()`:
either a resolved response with its text, or a thrown value (network error,
body-read failure). -/
inductive FetchOutcome where
  | success (r : UpstreamResponse)
  | failure (err : JsValue)

/-- An HTTP response as the handler builds it: status, headers, body text. -/
structure HttpResponse where
  status : Nat
  headers : List (String × String)
  body : String

/-- The `json` helper at the bottom of the file: serialize the data and
attach the `content-type: application/json` header. -/
def json (rt : JsonRuntime) (data : Json) (status : Nat) : HttpResponse :=
  { status := status
    headers := [("content-type", "application/json")]
    body := rt.stringify data }

/-- The headers of the upstream call: `content-type: application/json`, plus
`x-vercel-protection-bypass` when `REDDIT_BRIDGE_BYPASS_SECRET` is truthy. -/
def buildHeaders (env : Env) : List (String × String) :=
  [("content-type", "application/json")] ++
    (match env.REDDIT_BRIDGE_BYPASS_SECRET with
     | some s => if s != "" then [("x-vercel-protection-bypass", s)] else []
     | none => [])

/-- The upstream-body handling: read the text, attempt `JSON.parse`, and fall
back to the raw text when parsing throws. -/
def parsedData (rt : JsonRuntime) (text : String) : Json :=
  match rt.parse text with
  | some j => j
  | none => .str text

/-- The outbound request the handler dispatches:
`fetch(bridgeUrl, { method: "POST", headers, body: JSON.stringify(payload) })`. -/
def buildUpstreamRequest (rt : JsonRuntime) (env : Env) (bridgeUrl : String)
    (payload : RedditBridgeRequest) : UpstreamRequest :=
  { url := bridgeUrl
    method := "POST"
    headers := buildHeaders env
    body := rt.stringify (payloadJson payload) }

/-- The result of one handler invocation: the outbound calls it made, in
order, and the response it returned. -/
structure HandlerResult where
  calls : List UpstreamRequest
  response : HttpResponse

/-- The body of the handler's `try` block, step by step: method check (405),
wrapper authentication (401), configuration check (500), body parse (400),
field validation (400), dispatch, and upstream-outcome translation (502 /
200). A `.error` carries a value thrown inside the block to the catch
clause; the call trace is kept either way. -/
def tryBlock (rt : JsonRuntime) (env : Env)
    (fetchFn : UpstreamRequest → FetchOutcome) (request : InboundRequest) :
    List UpstreamRequest × Except JsValue HttpResponse :=
  if request.method != "POST" then
    ([], .ok (json rt (.obj [("error", .str "Method not allowed. Use POST.")]) 405))
  else if !(wrapperAuthOk env request) then
    ([], .ok (json rt (.obj [("error", .str "Unauthorised.")]) 401))
  else
    match env.REDDIT_BRIDGE_URL with
    | none =>
      ([], .ok (json rt (.obj [("error", .str "Server misconfigured: REDDIT_BRIDGE_URL not set.")]) 500))
    | some bridgeUrl =>
      if bridgeUrl == "" then
        ([], .ok (json rt (.obj [("error", .str "Server misconfigured: REDDIT_BRIDGE_URL not set.")]) 500))
      else
        match request.body with
        | none =>
          ([], .ok (json rt (.obj [("error", .str "Request body must be valid JSON.")]) 400))
        | some body =>
          match validateAndBuild body with
          | .thrown err => ([], .error err)
          | .invalid =>
            ([], .ok (json rt (.obj [("error", .str "Body must include string fields 'subreddit' and 'query'.")]) 400))
          | .valid payload =>
            match fetchFn (buildUpstreamRequest rt env bridgeUrl payload) with
            | .failure err => ([buildUpstreamRequest rt env bridgeUrl payload], .error err)
            | .success up =>
              if !up.ok then
                ([buildUpstreamRequest rt env bridgeUrl payload],
                 .ok (json rt (.obj [("error", .str "Upstream bridge error."),
                   ("status", .num (up.status : Int)),
                   ("detail", parsedData rt up.text)]) 502))
              else
                ([buildUpstreamRequest rt env bridgeUrl payload],
                 .ok (json rt (.obj [("ok", .bool true),
                   ("bridge_status", .num (up.status : Int)),
                   ("bridge_url", .str bridgeUrl),
                   ("data", parsedData rt up.text)]) 200))

/-- The exported handler: the `try` block wrapped in the catch clause, which
turns any thrown value into the 500 catch-all response. -/
def handler (rt : JsonRuntime) (env : Env)
    (fetchFn : UpstreamRequest → FetchOutcome) (request : InboundRequest) :
    HandlerResult :=
  match tryBlock rt env fetchFn request with
  | (calls, .ok resp) => { calls := calls, response := resp }
  | (calls, .error err) =>
    { calls := calls
      response := json rt (.obj [("error", .str "Unexpected server error."),
        ("detail", catchDetail err)]) 500 }

/-- Whether a request passes every pre-dispatch step, so that the single
upstream fetch is issued. -/
def reachesDispatch (env : Env) (request : InboundRequest) : Bool :=
  request.method == "POST" && wrapperAuthOk env request &&
    envTruthy env.REDDIT_BRIDGE_URL &&
    (match request.body with
     | none => false
     | some j =>
       match validateAndBuild j with
       | .valid _ => true
       | _ => false)

/-- A concrete runtime for evaluating the handler on sample inputs. Its
`stringify` is constant and its `parse` always fails; the theorems hold for
every runtime, so any concrete one serves. -/
def rt0 : JsonRuntime := { stringify := fun _ => "{}", parse := fun _ => none }

/-- A sample environment: upstream URL configured, no wrapper key, no
bypass secret. -/
def env0 : Env :=
  { MCP_WRAPPER_KEY := none
    REDDIT_BRIDGE_URL := some "https://bridge.example/api"
    REDDIT_BRIDGE_BYPASS_SECRET := none }

/-- A sample environment with a wrapper key configured. -/
def envK : Env :=
  { MCP_WRAPPER_KEY := some "sekret"
    REDDIT_BRIDGE_URL := some "https://bridge.example/api"
    REDDIT_BRIDGE_BYPASS_SECRET := none }

/-- A sample network on which every request resolves with status 200. -/
def fetch0 : UpstreamRequest → FetchOutcome :=
  fun _ => .success { status := 200, ok := true, text := "[]" }

/-- A sample network on which every request resolves with status 503. -/
def fetch503 : UpstreamRequest → FetchOutcome :=
  fun _ => .success { status := 503, ok := false, text := "busy" }

/-- A sample request with the given method and parsed body and no headers. -/
def reqOf (m : String) (b : Option Json) : InboundRequest :=
  { method := m, headers := fun _ => none, body := b }

/-- A sample POST request carrying the given `x-mcp-key` header value. -/
def reqWithKey (v : String) : InboundRequest :=
  { method := "POST"
    headers := fun n => if n == "x-mcp-key" then some v else none
    body := none }

/-- A sample valid parsed body. -/
def jValid : Json := .obj [("subreddit", .str "test"), ("query", .str "foo")]

/-- The payload the handler builds from `jValid`. -/
def pValid : RedditBridgeRequest :=
  { subreddit := .val (.str "test"), query := .val (.str "foo")
    size := .undefined, before := .undefined, after := .undefined }

end RedditMcp

namespace RedditMcp

/-- Property reads never throw on a non-null parsed value. -/
theorem getField_of_ne_null (j : Json) (f : String) (h : j ≠ .null) :
    getField j f = .ok (getFieldD j f) := by
  cases j with
  | null => exact absurd rfl h
  | bool b => rfl
  | num n => rfl
  | str s => rfl
  | arr xs => rfl
  | obj fs => rfl

/-- On a non-null parsed body, validation reduces to the two `typeof`
checks, and the payload copies the five fields verbatim. -/
theorem validateAndBuild_of_ne_null (j : Json) (h : j ≠ .null) :
    validateAndBuild j =
      (if typeofJs (getFieldD j "subreddit") != "string" then .invalid
       else if typeofJs (getFieldD j "query") != "string" then .invalid
       else .valid { subreddit := getFieldD j "subreddit", query := getFieldD j "query",
                     size := getFieldD j "size", before := getFieldD j "before",
                     after := getFieldD j "after" }) := by
  unfold validateAndBuild
  rw [getField_of_ne_null j "subreddit" h, getField_of_ne_null j "query" h,
      getField_of_ne_null j "size" h, getField_of_ne_null j "before" h,
      getField_of_ne_null j "after" h]

/-- A body that validates successfully cannot have been JSON null. -/
theorem validateAndBuild_valid_ne_null (j : Json) (p : RedditBridgeRequest)
    (hv : validateAndBuild j = .valid p) : j ≠ .null := by
  intro h
  subst h
  simp [validateAndBuild, getField] at hv

/-- Every non-thrown outcome of the try block is built by the `json`
constructor, and only the authentication step produces status 401. -/
theorem tryBlock_ok_json (rt : JsonRuntime) (env : Env)
    (f : UpstreamRequest → FetchOutcome) (req : InboundRequest) (r : HttpResponse)
    (h : (tryBlock rt env f req).2 = .ok r) :
    ∃ d s, r = json rt d s ∧ (wrapperAuthOk env req = true → s ≠ 401) := by
  unfold tryBlock at h
  repeat' split at h
  all_goals first
    | (injection h with h2; exact ⟨_, _, h2.symm, by intro _; decide⟩)
    | (injection h with h2
       refine ⟨_, 401, h2.symm, ?_⟩
       intro hw
       simp_all)
    | cases h

/-- A request that passes wrapper authentication is never answered 401. -/
theorem handler_status_ne_401_of_auth (rt : JsonRuntime) (env : Env)
    (f : UpstreamRequest → FetchOutcome) (req : InboundRequest)
    (ha : wrapperAuthOk env req = true) :
    (handler rt env f req).response.status ≠ 401 := by
  rcases htb : tryBlock rt env f req with ⟨calls, r⟩
  cases r with
  | error err =>
    unfold handler
    rw [htb]
    simp [json]
  | ok resp =>
    obtain ⟨d, s, hr, hne⟩ := tryBlock_ok_json rt env f req resp (by rw [htb])
    unfold handler
    rw [htb]
    subst hr
    simpa [json] using hne ha

/-- Wrapper authentication reads the request only through its headers. -/
theorem wrapperAuthOk_headers_congr (env : Env) (r1 r2 : InboundRequest)
    (h : r1.headers = r2.headers) : wrapperAuthOk env r1 = wrapperAuthOk env r2 := by
  unfold wrapperAuthOk
  rw [h]

/-- Claim C1, counterexample: a POST request that passes the method,
authentication and configuration checks and whose body parses as JSON null
(a non-object JSON value whose `subreddit` field is missing) is answered
with status 500, not 400: the property read `body.subreddit` throws a
TypeError on null, which the catch-all converts to the 500 response. -/
theorem c1_counterexample :
    (reqOf "POST" (some .null)).method = "POST" ∧
    wrapperAuthOk env0 (reqOf "POST" (some .null)) = true ∧
    envTruthy env0.REDDIT_BRIDGE_URL = true ∧
    (reqOf "POST" (some .null)).body = some .null ∧
    typeofJs (getFieldD .null "subreddit") ≠ "string" ∧
    (handler rt0 env0 fetch0 (reqOf "POST" (some .null))).response.status = 500 ∧
    (handler rt0 env0 fetch0 (reqOf "POST" (some .null))).response.status ≠ 400 := by
  refine ⟨rfl, rfl, by decide, rfl, by decide, rfl, by decide⟩

/-- Claim C1, amended: for every inbound POST request that passes the
method, authentication and configuration checks and whose body parses as a
JSON value other than JSON null, if the parsed `subreddit` or `query` field
is missing or not of string type, the handler returns status 400 with body
`error: "Body must include string fields 'subreddit' and 'query'."` and
makes no upstream call; this covers non-object values such as numbers,
strings, booleans and arrays, while JSON null instead reaches the catch-all
(500). -/
theorem c1_validation_400_amended (rt : JsonRuntime) (env : Env)
    (f : UpstreamRequest → FetchOutcome) (req : InboundRequest) (j : Json)
    (hm : req.method = "POST") (ha : wrapperAuthOk env req = true)
    (hurl : envTruthy env.REDDIT_BRIDGE_URL = true)
    (hb : req.body = some j) (hnull : j ≠ .null)
    (hinv : ¬(typeofJs (getFieldD j "subreddit") = "string" ∧
              typeofJs (getFieldD j "query") = "string")) :
    handler rt env f req =
      { calls := []
        response := json rt
          (.obj [("error", .str "Body must include string fields 'subreddit' and 'query'.")])
          400 } := by
  have hv : validateAndBuild j = .invalid := by
    rw [validateAndBuild_of_ne_null j hnull]
    by_cases hs : typeofJs (getFieldD j "subreddit") = "string"
    · have hq : typeofJs (getFieldD j "query") ≠ "string" := fun hq => hinv ⟨hs, hq⟩
      simp [hs, hq]
    · simp [hs]
  rcases henv : env.REDDIT_BRIDGE_URL with _ | u
  · rw [henv] at hurl
    simp [envTruthy] at hurl
  · have hu : u ≠ "" := by
      rw [henv] at hurl
      simpa [envTruthy] using hurl
    unfold handler tryBlock
    simp [hm, ha, henv, hb, hv, hu]

/-- Claim C1, witness: the empty JSON object reaches the field-validation
step and is answered with the 400 validation response. -/
theorem c1_witness :
    (Json.obj [] ≠ Json.null) ∧
    ¬(typeofJs (getFieldD (Json.obj []) "subreddit") = "string" ∧
      typeofJs (getFieldD (Json.obj []) "query") = "string") ∧
    handler rt0 env0 fetch0 (reqOf "POST" (some (.obj []))) =
      { calls := []
        response := json rt0
          (.obj [("error", .str "Body must include string fields 'subreddit' and 'query'.")])
          400 } :=
  ⟨fun h => Json.noConfusion h, by decide,
    c1_validation_400_amended rt0 env0 fetch0 (reqOf "POST" (some (.obj []))) (.obj [])
      rfl rfl (by decide) rfl (fun h => Json.noConfusion h) (by decide)⟩

/-- Claim C2, counterexample: an invocation that terminates at the method
check (a GET request) performs zero outbound network calls, not exactly
one. -/
theorem c2_counterexample :
    (reqOf "GET" none).method ≠ "POST" ∧
    (handler rt0 env0 fetch0 (reqOf "GET" none)).response.status = 405 ∧
    (handler rt0 env0 fetch0 (reqOf "GET" none)).calls.length = 0 ∧
    (handler rt0 env0 fetch0 (reqOf "GET" none)).calls.length ≠ 1 := by
  refine ⟨by decide, rfl, rfl, by decide⟩

/-- Claim C2, amended: every invocation performs at most one outbound
network call, and exactly one if and only if the request passes the method,
authentication, configuration, body-parse and field-validation steps;
invocations that terminate at one of those steps perform none. (The handler
is a pure function of the request, environment and network in this
embedding, so it mutates no local or shared state by construction.) -/
theorem c2_at_most_one_call_amended (rt : JsonRuntime) (env : Env)
    (f : UpstreamRequest → FetchOutcome) (req : InboundRequest) :
    (handler rt env f req).calls.length ≤ 1 ∧
    ((handler rt env f req).calls.length = 1 ↔ reachesDispatch env req = true) := by
  have hcalls : (handler rt env f req).calls = (tryBlock rt env f req).1 := by
    unfold handler
    rcases tryBlock rt env f req with ⟨calls, r⟩
    cases r <;> rfl
  rw [hcalls]
  unfold tryBlock reachesDispatch
  repeat' split
  all_goals simp_all [envTruthy]

/-- Claim C3: the handler always returns a response; whenever a value is
thrown inside the try block (network failure, TypeError on a null body),
the catch clause converts it into status 500 with body
`error: "Unexpected server error."` and a detail that is the thrown value's
`message` when that message is a string and the string "Unknown error"
otherwise. -/
theorem c3_catch_all_total (rt : JsonRuntime) (env : Env)
    (f : UpstreamRequest → FetchOutcome) (req : InboundRequest) (err : JsValue)
    (h : (tryBlock rt env f req).2 = .error err) :
    (handler rt env f req).response =
      json rt (.obj [("error", .str "Unexpected server error."),
        ("detail", catchDetail err)]) 500 ∧
    (∀ m, errMessage err = .val (.str m) → catchDetail err = .str m) ∧
    (typeofJs (errMessage err) ≠ "string" → catchDetail err = .str "Unknown error") := by
  refine ⟨?_, ?_, ?_⟩
  · rcases htb : tryBlock rt env f req with ⟨calls, r⟩
    rw [htb] at h
    cases r with
    | error e =>
      injection h with h2
      subst h2
      unfold handler
      rw [htb]
    | ok resp => cases h
  · intro m hm
    unfold catchDetail
    rw [hm]
  · intro hm
    unfold catchDetail
    cases hmsg : errMessage err with
    | undefined => rfl
    | val jm =>
      cases jm with
      | str m => exact absurd (by rw [hmsg]; rfl) hm
      | null => rfl
      | bool b => rfl
      | num n => rfl
      | arr xs => rfl
      | obj fs => rfl

/-- Claim C3, witness: a JSON-null body throws a TypeError inside the try
block, and the handler converts it to the 500 catch-all response. -/
theorem c3_witness :
    (tryBlock rt0 env0 fetch0 (reqOf "POST" (some .null))).2 =
      .error (typeError "subreddit") ∧
    (handler rt0 env0 fetch0 (reqOf "POST" (some .null))).response =
      json rt0 (.obj [("error", .str "Unexpected server error."),
        ("detail", catchDetail (typeError "subreddit"))]) 500 :=
  ⟨rfl, (c3_catch_all_total rt0 env0 fetch0 (reqOf "POST" (some .null))
    (typeError "subreddit") rfl).1⟩

/-- Claim C4: a valid request issues exactly one POST to the configured
upstream URL; its headers hold `content-type: application/json` and the
`x-vercel-protection-bypass` header exactly when the bypass secret is
truthy; its body is the serialization of the payload copying the five
fields verbatim from the parsed body, with `undefined` optional fields
omitted. -/
theorem c4_upstream_dispatch (rt : JsonRuntime) (env : Env)
    (f : UpstreamRequest → FetchOutcome) (req : InboundRequest)
    (u : String) (j : Json) (p : RedditBridgeRequest)
    (hm : req.method = "POST") (ha : wrapperAuthOk env req = true)
    (hurl : env.REDDIT_BRIDGE_URL = some u) (hu : u ≠ "")
    (hb : req.body = some j) (hv : validateAndBuild j = .valid p) :
    (handler rt env f req).calls = [buildUpstreamRequest rt env u p] ∧
    buildUpstreamRequest rt env u p =
      { url := u, method := "POST", headers := buildHeaders env
        body := rt.stringify (payloadJson p) } ∧
    p = { subreddit := getFieldD j "subreddit", query := getFieldD j "query",
          size := getFieldD j "size", before := getFieldD j "before",
          after := getFieldD j "after" } ∧
    ("content-type", "application/json") ∈ buildHeaders env ∧
    (∀ s, env.REDDIT_BRIDGE_BYPASS_SECRET = some s → s ≠ "" →
      buildHeaders env =
        [("content-type", "application/json"), ("x-vercel-protection-bypass", s)]) ∧
    (envTruthy env.REDDIT_BRIDGE_BYPASS_SECRET = false →
      buildHeaders env = [("content-type", "application/json")]) ∧
    (p.size = .undefined → p.before = .undefined → p.after = .undefined →
      payloadJson p = .obj (optField "subreddit" p.subreddit ++ optField "query" p.query)) := by
  have hcalls : (handler rt env f req).calls = (tryBlock rt env f req).1 := by
    unfold handler
    rcases tryBlock rt env f req with ⟨calls, r⟩
    cases r <;> rfl
  refine ⟨?_, rfl, ?_, ?_, ?_, ?_, ?_⟩
  · rw [hcalls]
    unfold tryBlock
    simp only [hm, ha, hurl, hb, hv]
    simp only [bne_self_eq_false, Bool.not_false, if_false, Bool.not_true, if_true]
    simp [hu]
    cases f (buildUpstreamRequest rt env u p) with
    | failure e => rfl
    | success up =>
      dsimp only
      split <;> rfl
  · have hnull : j ≠ .null := validateAndBuild_valid_ne_null j p hv
    rw [validateAndBuild_of_ne_null j hnull] at hv
    split at hv
    · cases hv
    · split at hv
      · cases hv
      · injection hv with h
        exact h.symm
  · unfold buildHeaders
    exact List.mem_append_left _ (List.mem_singleton.mpr rfl)
  · intro s hs hne
    unfold buildHeaders
    rw [hs]
    simp [hne]
  · intro hfalse
    unfold buildHeaders
    rcases hbp : env.REDDIT_BRIDGE_BYPASS_SECRET with _ | s
    · simp
    · rw [hbp] at hfalse
      simp [envTruthy] at hfalse
      simp [hfalse]
  · intro h1 h2 h3
    unfold payloadJson
    rw [h1, h2, h3]
    simp [optField]

/-- Claim C4, witness: the sample valid body `subreddit: "test",
query: "foo"` produces exactly one upstream call. -/
theorem c4_witness :
    validateAndBuild jValid = .valid pValid ∧
    (handler rt0 env0 fetch0 (reqOf "POST" (some jValid))).calls =
      [buildUpstreamRequest rt0 env0 "https://bridge.example/api" pValid] :=
  ⟨rfl, (c4_upstream_dispatch rt0 env0 fetch0 (reqOf "POST" (some jValid))
    "https://bridge.example/api" jValid pValid rfl rfl rfl (by decide) rfl rfl).1⟩

/-- Claim C5: when the upstream call resolves with an ok status, the
handler answers 200 with exactly
`ok: true, bridge_status, bridge_url, data`, where the data is the parse of
the upstream body text when it parses and the raw text otherwise (graceful
degradation, never an error response). -/
theorem c5_success_relay (rt : JsonRuntime) (env : Env)
    (f : UpstreamRequest → FetchOutcome) (req : InboundRequest)
    (u : String) (j : Json) (p : RedditBridgeRequest) (up : UpstreamResponse)
    (hm : req.method = "POST") (ha : wrapperAuthOk env req = true)
    (hurl : env.REDDIT_BRIDGE_URL = some u) (hu : u ≠ "")
    (hb : req.body = some j) (hv : validateAndBuild j = .valid p)
    (hf : f (buildUpstreamRequest rt env u p) = .success up)
    (hok : up.ok = true) :
    handler rt env f req =
      { calls := [buildUpstreamRequest rt env u p]
        response := json rt (.obj [("ok", .bool true),
          ("bridge_status", .num (up.status : Int)),
          ("bridge_url", .str u), ("data", parsedData rt up.text)]) 200 } ∧
    (rt.parse up.text = none → parsedData rt up.text = .str up.text) ∧
    (∀ d, rt.parse up.text = some d → parsedData rt up.text = d) := by
  refine ⟨?_, ?_, ?_⟩
  · unfold handler tryBlock
    simp [hm, ha, hurl, hu, hb, hv, hf, hok]
  · intro hp
    unfold parsedData
    rw [hp]
  · intro d hp
    unfold parsedData
    rw [hp]

/-- Claim C5, witness: an upstream 200 with body "[]" (unparseable under
the sample runtime, so relayed as raw text) yields the 200 relay
response. -/
theorem c5_witness :
    fetch0 (buildUpstreamRequest rt0 env0 "https://bridge.example/api" pValid) =
      .success { status := 200, ok := true, text := "[]" } ∧
    handler rt0 env0 fetch0 (reqOf "POST" (some jValid)) =
      { calls := [buildUpstreamRequest rt0 env0 "https://bridge.example/api" pValid]
        response := json rt0 (.obj [("ok", .bool true),
          ("bridge_status", .num (200 : Int)),
          ("bridge_url", .str "https://bridge.example/api"),
          ("data", parsedData rt0 "[]")]) 200 } :=
  ⟨rfl, (c5_success_relay rt0 env0 fetch0 (reqOf "POST" (some jValid))
    "https://bridge.example/api" jValid pValid
    { status := 200, ok := true, text := "[]" }
    rfl rfl rfl (by decide) rfl rfl rfl rfl).1⟩

/-- Claim C6: when the upstream call resolves with a not-ok status, the
handler answers 502 with exactly
`error: "Upstream bridge error.", status, detail`, where the detail is the
parse of the upstream body text when it parses and the raw text
otherwise. -/
theorem c6_upstream_error_relay (rt : JsonRuntime) (env : Env)
    (f : UpstreamRequest → FetchOutcome) (req : InboundRequest)
    (u : String) (j : Json) (p : RedditBridgeRequest) (up : UpstreamResponse)
    (hm : req.method = "POST") (ha : wrapperAuthOk env req = true)
    (hurl : env.REDDIT_BRIDGE_URL = some u) (hu : u ≠ "")
    (hb : req.body = some j) (hv : validateAndBuild j = .valid p)
    (hf : f (buildUpstreamRequest rt env u p) = .success up)
    (hok : up.ok = false) :
    handler rt env f req =
      { calls := [buildUpstreamRequest rt env u p]
        response := json rt (.obj [("error", .str "Upstream bridge error."),
          ("status", .num (up.status : Int)),
          ("detail", parsedData rt up.text)]) 502 } ∧
    (rt.parse up.text = none → parsedData rt up.text = .str up.text) ∧
    (∀ d, rt.parse up.text = some d → parsedData rt up.text = d) := by
  refine ⟨?_, ?_, ?_⟩
  · unfold handler tryBlock
    simp [hm, ha, hurl, hu, hb, hv, hf, hok]
  · intro hp
    unfold parsedData
    rw [hp]
  · intro d hp
    unfold parsedData
    rw [hp]

/-- Claim C6, witness: an upstream 503 with body "busy" yields the 502
response carrying `status: 503` and the raw body as detail. -/
theorem c6_witness :
    fetch503 (buildUpstreamRequest rt0 env0 "https://bridge.example/api" pValid) =
      .success { status := 503, ok := false, text := "busy" } ∧
    handler rt0 env0 fetch503 (reqOf "POST" (some jValid)) =
      { calls := [buildUpstreamRequest rt0 env0 "https://bridge.example/api" pValid]
        response := json rt0 (.obj [("error", .str "Upstream bridge error."),
          ("status", .num (503 : Int)),
          ("detail", parsedData rt0 "busy")]) 502 } :=
  ⟨rfl, (c6_upstream_error_relay rt0 env0 fetch503 (reqOf "POST" (some jValid))
    "https://bridge.example/api" jValid pValid
    { status := 503, ok := false, text := "busy" }
    rfl rfl rfl (by decide) rfl rfl rfl rfl).1⟩

/-- Claim C7: on a POST request, with a truthy wrapper key configured, an
absent or mismatched `x-mcp-key` header yields the 401 response with no
upstream call, an exactly matching header is never answered 401, and with
no truthy wrapper key configured no request is answered 401. -/
theorem c7_wrapper_auth (rt : JsonRuntime) (env : Env)
    (f : UpstreamRequest → FetchOutcome) (req : InboundRequest) (k : String) :
    (req.method = "POST" → env.MCP_WRAPPER_KEY = some k → k ≠ "" →
      (req.headers "x-mcp-key" = none ∨
        ∃ h, req.headers "x-mcp-key" = some h ∧ h ≠ k) →
      handler rt env f req =
        { calls := []
          response := json rt (.obj [("error", .str "Unauthorised.")]) 401 }) ∧
    (env.MCP_WRAPPER_KEY = some k → k ≠ "" → req.headers "x-mcp-key" = some k →
      (handler rt env f req).response.status ≠ 401) ∧
    (envTruthy env.MCP_WRAPPER_KEY = false →
      (handler rt env f req).response.status ≠ 401) := by
  refine ⟨?_, ?_, ?_⟩
  · intro hm hk hkne hh
    have ha : wrapperAuthOk env req = false := by
      unfold wrapperAuthOk
      rw [hk]
      rcases hh with hh | ⟨h, hh, hne⟩
      · simp [hkne, hh]
      · simp [hkne, hh, hne]
    unfold handler tryBlock
    simp [hm, ha]
  · intro hk hkne hh
    have ha : wrapperAuthOk env req = true := by
      unfold wrapperAuthOk
      rw [hk, hh]
      simp [hkne]
    exact handler_status_ne_401_of_auth rt env f req ha
  · intro hk
    have ha : wrapperAuthOk env req = true := by
      unfold wrapperAuthOk
      rcases hke : env.MCP_WRAPPER_KEY with _ | key
      · rfl
      · rw [hke] at hk
        simp [envTruthy] at hk
        simp [hk]
    exact handler_status_ne_401_of_auth rt env f req ha

/-- Claim C7, witness: with the sample key configured, the header "wrong"
is answered 401 and the header "sekret" is not. -/
theorem c7_witness :
    (reqWithKey "wrong").headers "x-mcp-key" = some "wrong" ∧
    handler rt0 envK fetch0 (reqWithKey "wrong") =
      { calls := []
        response := json rt0 (.obj [("error", .str "Unauthorised.")]) 401 } ∧
    (handler rt0 envK fetch0 (reqWithKey "sekret")).response.status ≠ 401 :=
  ⟨rfl,
   (c7_wrapper_auth rt0 envK fetch0 (reqWithKey "wrong") "sekret").1
     rfl rfl (by decide) (Or.inr ⟨"wrong", rfl, by decide⟩),
   (c7_wrapper_auth rt0 envK fetch0 (reqWithKey "sekret") "sekret").2.1
     rfl (by decide) rfl⟩

/-- Claim C8: the handler's whole observable behaviour, and in particular
the forwarded payload, depends on the parsed body only through its
`subreddit`, `query`, `size`, `before` and `after` fields: two non-null
bodies agreeing on those five reads are indistinguishable, so extra inbound
fields are never forwarded upstream. -/
theorem c8_payload_noninterference (rt : JsonRuntime) (env : Env)
    (f : UpstreamRequest → FetchOutcome) (m : String) (hd : String → Option String)
    (j1 j2 : Json) (h1 : j1 ≠ .null) (h2 : j2 ≠ .null)
    (hsub : getFieldD j1 "subreddit" = getFieldD j2 "subreddit")
    (hq : getFieldD j1 "query" = getFieldD j2 "query")
    (hsz : getFieldD j1 "size" = getFieldD j2 "size")
    (hbf : getFieldD j1 "before" = getFieldD j2 "before")
    (haf : getFieldD j1 "after" = getFieldD j2 "after") :
    handler rt env f { method := m, headers := hd, body := some j1 } =
      handler rt env f { method := m, headers := hd, body := some j2 } := by
  have hv : validateAndBuild j1 = validateAndBuild j2 := by
    rw [validateAndBuild_of_ne_null j1 h1, validateAndBuild_of_ne_null j2 h2,
        hsub, hq, hsz, hbf, haf]
  have hw : wrapperAuthOk env { method := m, headers := hd, body := some j1 } =
      wrapperAuthOk env { method := m, headers := hd, body := some j2 } :=
    wrapperAuthOk_headers_congr env _ _ rfl
  unfold handler tryBlock
  dsimp only
  rw [hw, hv]

/-- Claim C8, witness: adding an `extra` field to the sample valid body
leaves the handler's result unchanged. -/
theorem c8_witness :
    getFieldD (Json.obj [("subreddit", .str "test"), ("query", .str "foo"),
        ("extra", .bool true)]) "subreddit" = getFieldD jValid "subreddit" ∧
    handler rt0 env0 fetch0
      { method := "POST", headers := fun _ => none
        body := some (.obj [("subreddit", .str "test"), ("query", .str "foo"),
          ("extra", .bool true)]) } =
    handler rt0 env0 fetch0
      { method := "POST", headers := fun _ => none, body := some jValid } :=
  ⟨rfl,
   c8_payload_noninterference rt0 env0 fetch0 "POST" (fun _ => none)
     (.obj [("subreddit", .str "test"), ("query", .str "foo"), ("extra", .bool true)])
     jValid
     (fun h => Json.noConfusion h) (fun h => Json.noConfusion h)
     rfl rfl rfl rfl rfl⟩

/-- Claim C9: setting `MCP_WRAPPER_KEY`, `REDDIT_BRIDGE_BYPASS_SECRET` or
`REDDIT_BRIDGE_URL` to the empty string behaves exactly as leaving the
variable unset (JavaScript truthiness), so an empty wrapper key never
causes a 401, an empty bypass secret omits the bypass header, and an empty
upstream URL yields the 500 misconfiguration response. -/
theorem c9_empty_env_as_unset (rt : JsonRuntime) (env : Env)
    (f : UpstreamRequest → FetchOutcome) (req : InboundRequest) :
    handler rt { env with MCP_WRAPPER_KEY := some "" } f req =
      handler rt { env with MCP_WRAPPER_KEY := none } f req ∧
    handler rt { env with REDDIT_BRIDGE_BYPASS_SECRET := some "" } f req =
      handler rt { env with REDDIT_BRIDGE_BYPASS_SECRET := none } f req ∧
    handler rt { env with REDDIT_BRIDGE_URL := some "" } f req =
      handler rt { env with REDDIT_BRIDGE_URL := none } f req ∧
    (handler rt { env with MCP_WRAPPER_KEY := some "" } f req).response.status ≠ 401 ∧
    (req.method = "POST" →
      wrapperAuthOk { env with REDDIT_BRIDGE_URL := some "" } req = true →
      handler rt { env with REDDIT_BRIDGE_URL := some "" } f req =
        { calls := []
          response := json rt
            (.obj [("error", .str "Server misconfigured: REDDIT_BRIDGE_URL not set.")])
            500 }) := by
  refine ⟨rfl, rfl, rfl, handler_status_ne_401_of_auth rt _ f req rfl, ?_⟩
  intro hm ha
  unfold handler tryBlock
  simp [hm, ha]

/-- Claim C9, witness: with `REDDIT_BRIDGE_URL` set to the empty string, a
POST request is answered with the 500 misconfiguration response. -/
theorem c9_witness :
    (reqOf "POST" none).method = "POST" ∧
    handler rt0 { env0 with REDDIT_BRIDGE_URL := some "" } fetch0 (reqOf "POST" none) =
      { calls := []
        response := json rt0
          (.obj [("error", .str "Server misconfigured: REDDIT_BRIDGE_URL not set.")])
          500 } :=
  ⟨rfl, (c9_empty_env_as_unset rt0 env0 fetch0 (reqOf "POST" none)).2.2.2.2 rfl rfl⟩

/-- Claim C10: on every input the handler's response carries the header
`content-type: application/json` and a body that is the serialization of
the outcome object, because every terminal outcome goes through the single
shared `json` constructor. -/
theorem c10_json_response_invariant (rt : JsonRuntime) (env : Env)
    (f : UpstreamRequest → FetchOutcome) (req : InboundRequest) :
    (handler rt env f req).response.headers = [("content-type", "application/json")] ∧
    ∃ d, (handler rt env f req).response.body = rt.stringify d := by
  rcases htb : tryBlock rt env f req with ⟨calls, r⟩
  cases r with
  | error err =>
    unfold handler
    rw [htb]
    exact ⟨rfl, _, rfl⟩
  | ok resp =>
    obtain ⟨d, s, hr, -⟩ := tryBlock_ok_json rt env f req resp (by rw [htb])
    unfold handler
    rw [htb]
    subst hr
    exact ⟨rfl, d, rfl⟩

end RedditMcp
